import Mathlib

/-!
# Verification of the smart-converter stream-monitoring core

A shallow embedding, in Lean 4, of the state-reconciliation, encoder-supervision
and telemetry-simulation code of the smart-converter repository, together with
theorems settling the frozen claims about it.

The repository contains two reconciler/monitor implementations:

* `src/stream_monitor.py` — a thread-based `StreamMonitor` (embedded below in
  namespace `SM`) together with the telemetry simulator of
  `src/drone_telemetry.py` (namespace `DT`);
* `src/web/stream_monitor.py` — an asyncio `StreamMonitor` with its own inline
  `DroneTelemetrySimulator` (namespace `WSM`).

The encoder-process supervision lives in `src/web/api.py` (namespace `API`).

Modelling conventions:

* Python dicts are modelled as association lists (`List (String × V)`) with
  Python's assignment semantics: assigning to an existing key updates the entry
  in place, assigning to a fresh key appends at the end (`dinsert`).
* Timestamps (`datetime.now()`, `datetime.utcnow()`) are abstract `Nat` clock
  values passed in explicitly.
* Random draws (`random.uniform`) are explicit parameters.
* Telemetry numerics use `ℚ`; the claims under scrutiny only involve exact
  comparisons against the clamp bounds, which `float` evaluates exactly as well
  for the concrete values used.
* Network fetches are passed in as already-decoded values; the distinct failure
  modes of the code (transport error, non-200 status, malformed payload) are
  explicit constructors.
-/

namespace SmartConverter

/-! ## Python dict model -/

/-- Lookup in an association list: the value of the first pair whose key
matches, as Python `d[k]` / `d.get(k)` would return. -/
def dlookup {V : Type} (k : String) : List (String × V) → Option V
  | [] => none
  | kv :: rest => if kv.1 = k then some kv.2 else dlookup k rest

/-- Python dict assignment `d[k] = v`: update the entry in place when the key
is present, append a new entry at the end otherwise. -/
def dinsert {V : Type} (k : String) (v : V) (m : List (String × V)) :
    List (String × V) :=
  if (dlookup k m).isSome then
    m.map (fun kv => if kv.1 = k then (k, v) else kv)
  else
    m ++ [(k, v)]

/-- The keys of the dict, in order. -/
def dkeys {V : Type} (m : List (String × V)) : List String := m.map (·.1)


/-! ## Thread-based monitor (`src/stream_monitor.py`) -/

namespace SM

/-- `StreamInfo` dataclass of `src/stream_monitor.py` (lines 13-25).
Timestamps are abstract `Nat` clock values; `bitrate`/`resolution` are kept so
that "every field" statements range over the whole record. -/
structure StreamInfo where
  path : String
  source_type : String
  publishers : Nat
  readers : Nat
  rtsp_url : String
  hls_url : String
  start_time : Option Nat := none
  last_seen : Option Nat := none
  status : String := "active"
  bitrate : Option Nat := none
  resolution : Option String := none
  deriving Repr, DecidableEq, Inhabited

/-- One element of `data['items']` as `_update_streams` consumes it: the path
name (`''` stands for a missing/falsy name, which the code skips), the
`source` object reduced to its effective `type` field (`none` = absent/empty
dict, which Python treats as falsy), and `len(readers)`. -/
structure PathItem where
  name : String
  source : Option String
  readers : Nat
  deriving Repr, DecidableEq, Inhabited

/-- The outcome of `requests.get(f"{api_url}/v3/paths/list")` and the decoding
in `_update_streams`: a transport exception, a non-200 status code, a payload
that is not a dict with an `items` key, or the decoded item list. -/
inductive FetchResult where
  | transportError
  | badStatus (code : Nat)
  | malformed
  | ok (items : List PathItem)
  deriving Repr, DecidableEq

/-- A lifecycle event queued via `self.event_queue.put(...)`: the tag and the
stream snapshot at emission time. -/
abbrev StreamEvent := String × StreamInfo

/-- The mutable state of `StreamMonitor`: `self.streams`,
`self.event_queue` (FIFO, modelled as a list appended at the tail), and
`self.telemetry_history`. History entries pair the payload with the timestamp
added at append time. -/
structure MonitorState where
  streams : List (String × StreamInfo) := []
  events : List StreamEvent := []
  telemetry_history : List (String × List (Nat × String)) := []
  deriving Repr, DecidableEq

/-- `f"http://localhost:8888/{path_name}/index.m3u8"` (line 74). -/
def hlsUrl (name : String) : String :=
  "http://localhost:8888/" ++ name ++ "/index.m3u8"

/-- `f"rtsp://localhost:8554/{path_name}"` (line 81). -/
def rtspUrl (name : String) : String := "rtsp://localhost:8554/" ++ name

/-- The loop body of `_update_streams` for one `path_info` (lines 66-99).
`t` is the value `datetime.now()` returns during this poll. -/
def updateOne (t : Nat) (st : MonitorState) (i : PathItem) : MonitorState :=
  if i.name = "" then st
  else
    match dlookup i.name st.streams with
    | none =>
      let s : StreamInfo :=
        { path := i.name
          source_type := i.source.getD "unknown"
          publishers := if i.source.isSome then 1 else 0
          readers := i.readers
          rtsp_url := rtspUrl i.name
          hls_url := hlsUrl i.name
          start_time := some t
          last_seen := some t }
      { st with
          streams := dinsert i.name s st.streams
          events := st.events ++ [("stream_started", s)] }
    | some s0 =>
      let s1 : StreamInfo :=
        { s0 with
            publishers := if i.source.isSome then 1 else 0
            readers := i.readers
            last_seen := some t
            hls_url := hlsUrl i.name }
      { st with
          streams := dinsert i.name s1 st.streams
          events := st.events ++
            (if s0.publishers > 0 ∧ s1.publishers = 0 then
              [("stream_ended", s1)]
            else if s0.publishers = 0 ∧ s1.publishers > 0 then
              [("stream_restarted", s1)]
            else []) }

/-- `_update_streams` (lines 54-103): a failed fetch — transport exception,
non-200 status, or malformed payload — returns with the state untouched;
a successful fetch folds `updateOne` over the items in order. -/
def update_streams (t : Nat) (r : FetchResult) (st : MonitorState) :
    MonitorState :=
  match r with
  | .transportError => st
  | .badStatus _ => st
  | .malformed => st
  | .ok items => items.foldl (updateOne t) st

/-- `get_active_streams` (lines 105-106): `list(self.streams.values())`. -/
def get_active_streams (st : MonitorState) : List StreamInfo :=
  st.streams.map (·.2)

/-- Python tail slice `xs[i:]` for an `int` index `i` (negative indices count
from the end and clamp at 0). -/
def pySliceFrom {α : Type} (xs : List α) (i : Int) : List α :=
  if i < 0 then xs.drop ((xs.length : Int) + i).toNat
  else xs.drop i.toNat

/-- `get_telemetry_history` (lines 165-168): return `[]` when the id has no
history entry, else `self.telemetry_history[drone_id][-limit:]`. -/
def get_telemetry_history (st : MonitorState) (drone_id : String)
    (limit : Int) : List (Nat × String) :=
  match dlookup drone_id st.telemetry_history with
  | none => []
  | some h => pySliceFrom h (-limit)

/-- Python exception classes raised by the embedded code. -/
inductive PyError where
  | attributeError
  deriving Repr, DecidableEq

/-- `update_telemetry` (lines 200-225). Its first statement,
`self.telemetry_simulator.update_telemetry(telemetry)` (line 201), calls a
method that `DroneTelemetrySimulator` (`src/drone_telemetry.py`) does not
define, so every call raises `AttributeError` before any of the history
bookkeeping at lines 210-218 can run; no state is mutated. -/
def update_telemetry (_t : Nat) (_batch : List (String × String))
    (_st : MonitorState) : Except PyError MonitorState :=
  Except.error .attributeError


/-- Distinctness of the (non-falsy) path names in one upstream snapshot; the
relay keys paths by name, so a real listing never repeats one. -/
def distinctNames (i j : PathItem) : Prop :=
  i.name ≠ "" → j.name ≠ "" → i.name ≠ j.name

instance : DecidableRel distinctNames := fun i j => by
  unfold distinctNames; infer_instance

/-- The fields a poll writes for every listed path: after the fold, the entry
of each (uniquely named) item holds that item's publisher flag, reader count
and HLS URL. -/
def itemProps (i : PathItem) (s : StreamInfo) : Prop :=
  s.publishers = (if i.source.isSome then 1 else 0) ∧
    s.readers = i.readers ∧ s.hls_url = hlsUrl i.name

end SM

/-! ## Async web monitor (`src/web/stream_monitor.py`) -/

namespace WSM

/-- `MonitoredStream` (lines 15-25). `publishers`/`readers` are the raw lists
from the detail response (abstracted to lists of opaque descriptors). -/
structure MonitoredStream where
  path : String
  source_type : String
  publishers : List String
  readers : List String
  status : String
  rtsp_url : String
  hls_url : String
  start_time : Option Nat := none
  last_seen : Option Nat := none
  deriving Repr, DecidableEq, Inhabited

/-- The decoded result of the per-path detail fetch in `_fetch_streams_status`
(lines 129-147): the listed `name` (`''` = missing/falsy, skipped), the
truthiness and effective `type` of the `source` object, the `publishers` and
`readers` lists, and `state` (`'ready'`/`'notReady'`). `detailFails` records
that `GET /v3/paths/get/{path}` raised, which the code catches and skips
(lines 186-188). -/
structure PathDetail where
  name : String
  source_type : String
  sourceSome : Bool
  publishers : List String
  readers : List String
  state : String
  detailFails : Bool
  deriving Repr, DecidableEq, Inhabited

/-- A telemetry point: the `datetime.utcnow()` timestamp paired with the
payload (abstracted). -/
abbrev TPoint := Nat × String

/-- The mutable state of the asyncio `StreamMonitor`: `self._active_streams`,
`self.telemetry_data`, `self.telemetry_history`, `self._stream_events`. -/
structure WebState where
  active : List (String × MonitoredStream) := []
  telemetry_data : List (String × String) := []
  telemetry_history : List (String × List TPoint) := []
  events : List (String × MonitoredStream) := []
  deriving Repr, DecidableEq

/-- The `MonitoredStream` built for one path detail (lines 141-162). `old` is
`self._active_streams` as it was when the poll began (the code builds
`new_active_streams` separately and only swaps it in at the end). -/
def mkStream (t : Nat) (old : List (String × MonitoredStream))
    (d : PathDetail) : MonitoredStream :=
  let status := if d.state = "ready" ∧ d.sourceSome then "active" else "inactive"
  { path := d.name
    source_type := d.source_type
    publishers := d.publishers
    readers := d.readers
    status := status
    rtsp_url := "rtsp://localhost:8554/" ++ d.name
    hls_url := "/static/hls/" ++ d.name ++ "/stream.m3u8"
    start_time :=
      if status = "active" ∧ (dlookup d.name old).isNone then some t
      else
        match dlookup d.name old with
        | some s0 => s0.start_time
        | none => none
    last_seen := some t }

/-- `path in self._active_streams` for the pre-poll map. -/
def prevPresent (old : List (String × MonitoredStream)) (name : String) :
    Bool :=
  (dlookup name old).isSome

/-- `self._active_streams[path].status == "active"` for the pre-poll map
(`false` when the path is absent). -/
def prevStatusActive (old : List (String × MonitoredStream)) (name : String) :
    Bool :=
  match dlookup name old with
  | none => false
  | some s0 => s0.status == "active"

/-- The lifecycle events appended for one path detail (lines 177-184). -/
def detailEvents (old : List (String × MonitoredStream)) (d : PathDetail)
    (s : MonitoredStream) : List (String × MonitoredStream) :=
  if s.status == "active" &&
      (!prevPresent old d.name || !prevStatusActive old d.name) then
    [("stream_started", s)]
  else if s.status == "inactive" && prevPresent old d.name &&
      prevStatusActive old d.name then
    [("stream_ended", s)]
  else []

/-- The loop body of `_fetch_streams_status` for one `path_data` (lines
129-188), acting on the `(new_active_streams, appended events)` accumulator.
A falsy name or a failing detail fetch skips the path. The
simulator-seeding side effect (lines 167-175) touches only the simulator's
drone table and is not modelled — no claim mentions it. -/
def processDetail (t : Nat) (old : List (String × MonitoredStream))
    (acc : List (String × MonitoredStream) × List (String × MonitoredStream))
    (d : PathDetail) :
    List (String × MonitoredStream) × List (String × MonitoredStream) :=
  if d.name = "" then acc
  else if d.detailFails then acc
  else
    let s := mkStream t old d
    (dinsert d.name s acc.1, acc.2 ++ detailEvents old d s)

/-- `_fetch_streams_status` (lines 117-203): on success the freshly built map
replaces `self._active_streams` wholesale (line 195) and the events gathered
during the loop extend `self._stream_events`; on `httpx.RequestError` or any
other exception the handler sets `self._active_streams = {}` (lines 198-203).
`resp = none` stands for either failure path. -/
def fetch_streams_status (t : Nat) (resp : Option (List PathDetail))
    (st : WebState) : WebState :=
  match resp with
  | none => { st with active := [] }
  | some ds =>
    let acc := ds.foldl (processDetail t st.active) ([], [])
    { st with active := acc.1, events := st.events ++ acc.2 }

/-- `get_active_streams` (lines 205-207). -/
def get_active_streams (st : WebState) : List MonitoredStream :=
  st.active.map (·.2)

/-- The history append-and-trim step of `_telemetry_loop` (lines 99-105):
append the point, then, when the history exceeds `self.max_history_size`
(= 1000, line 40), keep the slice `[-1000:]`. -/
def appendHistory (h : List TPoint) (x : TPoint) : List TPoint :=
  let h1 := h ++ [x]
  if 1000 < h1.length then SM.pySliceFrom h1 (-1000) else h1

/-- One iteration of `_telemetry_loop` (lines 87-115) over a generated
telemetry dict: store the current sample and append it (timestamped) to the
bounded history. The durable DB write (line 108) is an external side effect
and is not modelled. -/
def telemetryTick (t : Nat) (batch : List (String × String))
    (st : WebState) : WebState :=
  batch.foldl
    (fun st idd =>
      let h0 := (dlookup idd.1 st.telemetry_history).getD []
      { st with
          telemetry_data := dinsert idd.1 idd.2 st.telemetry_data
          telemetry_history :=
            dinsert idd.1 (appendHistory h0 (t, idd.2)) st.telemetry_history })
    st

/-- `get_telemetry_history` (lines 218-221):
`self.telemetry_history.get(drone_id, [])[-limit:]`. -/
def get_telemetry_history (st : WebState) (drone_id : String)
    (limit : Int) : List TPoint :=
  SM.pySliceFrom ((dlookup drone_id st.telemetry_history).getD []) (-limit)

/-- `self.telemetry_history.get(p, [])`: the stored history of one path. -/
def historyAt (st : WebState) (p : String) : List TPoint :=
  (dlookup p st.telemetry_history).getD []

/-- The scalar part of one `generate_telemetry` step for one drone (lines
327-330): altitude and speed are clamped only from below at 0; battery and
signal strength are clamped to `[0, 100]`. The position fields (lines
311-324) involve floating-point trigonometry and are not needed by any
claim, so they are omitted from the record. The `d*` arguments are the
`random.uniform` draws: `dAlt ∈ [-2,2]`, `dSpd ∈ [-1,1]`,
`dBat ∈ [0.01,0.1]`, `dSig ∈ [-0.5,0.5]`. -/
structure WDrone where
  altitude : ℚ
  speed : ℚ
  battery : ℚ
  signal_strength : ℚ
  deriving Repr, DecidableEq

/-- Scalar update of `generate_telemetry` (lines 327-330). -/
def genTickScalars (d : WDrone) (dAlt dSpd dBat dSig : ℚ) : WDrone :=
  { altitude := max 0 (d.altitude + dAlt)
    speed := max 0 (d.speed + dSpd)
    battery := max 0 (min 100 (d.battery - dBat))
    signal_strength := max 0 (min 100 (d.signal_strength + dSig)) }

/-- Distinctness of the (non-falsy) path names in one upstream snapshot, for
the detail records consumed by the async monitor; the relay keys paths by
name, so a real listing never repeats one. -/
def distinctNames (d e : PathDetail) : Prop :=
  d.name ≠ "" → e.name ≠ "" → d.name ≠ e.name

instance : DecidableRel distinctNames := fun d e => by
  unfold distinctNames; infer_instance

end WSM

/-! ## Thread-based telemetry simulator (`src/drone_telemetry.py`) -/

namespace DT

/-- The scalar fields of `DroneTelemetry` updated by `_simulation_loop`
(lines 124-144). Latitude/longitude come from `_update_position`, a
floating-point trigonometric function no claim depends on; they are omitted
from the record. -/
structure DroneScalars where
  altitude : ℚ
  speed : ℚ
  battery : ℚ
  signal_strength : ℚ
  status : String
  deriving Repr, DecidableEq

/-- One `_simulation_loop` tick for one drone, scalar part (lines 124-144).
The `d*` arguments are the `random.uniform` draws: `dAlt ∈ [-5,5]`,
`dSpd ∈ [-1,1]`, `dBat ∈ [0.1,0.3]`, `dSig ∈ [-2,2]`. -/
def simTick (d : DroneScalars) (dAlt dSpd dBat dSig : ℚ) : DroneScalars :=
  let alt := max 50 (min 150 (d.altitude + dAlt))
  let spd := max 5 (min 15 (d.speed + dSpd))
  let bat := max 0 (min 100 (d.battery - dBat))
  let sig := max 0 (min 100 (d.signal_strength + dSig))
  { altitude := alt
    speed := spd
    battery := bat
    signal_strength := sig
    status :=
      if bat ≤ 0 then "low_battery"
      else if sig < 30 then "low_signal"
      else "active" }

end DT

/-! ## Encoder process supervision (`src/web/api.py`) -/

namespace API

/-- `os.path.basename` for `/`-separated paths, as used at line 667. -/
def basename (s : String) : String := (s.splitOn "/").getLastD s

/-- How a `websocket_endpoint` start attempt terminates (lines 610-731):
each error constructor is one of the early `return` paths of the handler.
`invalidSource` is the missing-file return at lines 669-679 (the code logs
and returns without spawning or registering anything). -/
inductive StartResult where
  | noFilePath
  | invalidSource
  | unsupportedType
  | spawnError
  | started (pid : Nat)
  deriving Repr, DecidableEq

/-- The encoder-start path of `websocket_endpoint` (lines 646-721), acting on
the module-level registry `ffmpeg_processes` (line 29). `fileExists` stands
for `os.path.exists`; `spawn` is the outcome of
`asyncio.create_subprocess_exec` (`none` = `FileNotFoundError` or other spawn
exception, `some pid` = a started process). The argument-vector assembly is
not modelled — no claim mentions it. On success the process is registered
with plain dict assignment (line 721), which silently replaces any existing
entry for the same key. -/
def websocket_start (fileExists : String → Bool) (spawn : Option Nat)
    (registry : List (String × Nat)) (stream_key : String)
    (sourceType : String) (filePath : Option String) :
    StartResult × List (String × Nat) :=
  if sourceType = "file" then
    match filePath with
    | none => (.noFilePath, registry)
    | some fp =>
      if fp = "" then (.noFilePath, registry)
      else
        let target := "uploads/" ++ basename fp
        if fileExists target then
          match spawn with
          | none => (.spawnError, registry)
          | some pid => (.started pid, dinsert stream_key pid registry)
        else (.invalidSource, registry)
  else (.unsupportedType, registry)

end API

/-! ## Dictionary lemmas -/

theorem dlookup_nil {V : Type} (k : String) : dlookup (V := V) k [] = none := rfl

theorem dlookup_append {V : Type} (k : String) (m l : List (String × V)) :
    dlookup k (m ++ l) =
      match dlookup k m with
      | some v => some v
      | none => dlookup k l := by
  induction m with
  | nil => rfl
  | cons kv rest ih =>
    by_cases h : kv.1 = k <;> simp [dlookup, h, ih]

theorem dlookup_map_replace {V : Type} (k : String) (v : V) :
    ∀ m : List (String × V), (dlookup k m).isSome →
      dlookup k (m.map (fun kv => if kv.1 = k then (k, v) else kv)) = some v := by
  intro m
  induction m with
  | nil => intro h; simp [dlookup] at h
  | cons kv rest ih =>
    intro h
    by_cases hk : kv.1 = k
    · simp [dlookup, hk]
    · simp [dlookup, hk] at h ⊢
      exact ih h

theorem dlookup_map_replace_ne {V : Type} {p k : String} (hpk : p ≠ k) (v : V) :
    ∀ m : List (String × V),
      dlookup p (m.map (fun kv => if kv.1 = k then (k, v) else kv)) =
        dlookup p m := by
  intro m
  induction m with
  | nil => rfl
  | cons kv rest ih =>
    by_cases hk : kv.1 = k
    · have hkp : ¬ (k = p) := fun hh => hpk hh.symm
      simp [dlookup, hk, hkp, ih]
    · by_cases hp : kv.1 = p
      · simp [dlookup, hk, hp, hpk]
      · simp [dlookup, hk, hp, ih]

theorem dlookup_insert_self {V : Type} (k : String) (v : V)
    (m : List (String × V)) : dlookup k (dinsert k v m) = some v := by
  unfold dinsert
  by_cases h : (dlookup k m).isSome
  · rw [if_pos h]
    exact dlookup_map_replace k v m h
  · rw [if_neg h, dlookup_append]
    rcases hm : dlookup k m with _ | w
    · simp [dlookup]
    · rw [hm] at h; simp at h

theorem dlookup_insert_ne {V : Type} {p k : String} (hpk : p ≠ k) (v : V)
    (m : List (String × V)) : dlookup p (dinsert k v m) = dlookup p m := by
  unfold dinsert
  by_cases h : (dlookup k m).isSome
  · rw [if_pos h]
    exact dlookup_map_replace_ne hpk v m
  · rw [if_neg h, dlookup_append]
    rcases hm : dlookup p m with _ | w
    · simp only [dlookup]
      rw [if_neg (fun hh : k = p => hpk hh.symm)]
    · simp

theorem dlookup_insert_cases {V : Type} {p k : String} {v w : V}
    {m : List (String × V)} (h : dlookup p (dinsert k v m) = some w) :
    (p = k ∧ w = v) ∨ (p ≠ k ∧ dlookup p m = some w) := by
  by_cases hpk : p = k
  · subst hpk
    rw [dlookup_insert_self] at h
    exact Or.inl ⟨rfl, (Option.some_inj.mp h).symm⟩
  · rw [dlookup_insert_ne hpk] at h
    exact Or.inr ⟨hpk, h⟩

theorem dlookup_none_iff_not_mem {V : Type} (p : String)
    (m : List (String × V)) : dlookup p m = none ↔ p ∉ dkeys m := by
  induction m with
  | nil => simp [dlookup, dkeys]
  | cons kv rest ih =>
    by_cases h : kv.1 = p
    · simp [dlookup, dkeys, h]
    · simp only [dlookup, h, if_false, dkeys, List.map_cons, List.mem_cons]
      rw [ih]
      constructor
      · intro hn hmem
        rcases hmem with h1 | h2
        · exact h h1.symm
        · exact hn h2
      · intro hn
        exact fun h2 => hn (Or.inr h2)

theorem dkeys_insert_of_mem {V : Type} (k : String) (v : V)
    (m : List (String × V)) (h : (dlookup k m).isSome) :
    dkeys (dinsert k v m) = dkeys m := by
  unfold dinsert
  simp only [h, if_true, dkeys, List.map_map]
  apply List.map_congr_left
  intro kv _
  by_cases hk : kv.1 = k <;> simp [hk]

theorem dkeys_insert_of_not_mem {V : Type} (k : String) (v : V)
    (m : List (String × V)) (h : ¬ (dlookup k m).isSome) :
    dkeys (dinsert k v m) = dkeys m ++ [k] := by
  unfold dinsert
  simp [h, dkeys]

theorem dkeys_nodup_insert {V : Type} (k : String) (v : V)
    (m : List (String × V)) (h : (dkeys m).Nodup) :
    (dkeys (dinsert k v m)).Nodup := by
  by_cases hk : (dlookup k m).isSome
  · rw [dkeys_insert_of_mem k v m hk]; exact h
  · rw [dkeys_insert_of_not_mem k v m hk]
    have hnot : k ∉ dkeys m := by
      have := (dlookup_none_iff_not_mem k m).mp
      apply this
      rcases hm : dlookup k m with _ | w
      · rfl
      · rw [hm] at hk; simp at hk
    simp [List.nodup_append, h, hnot]

/-! ## Helper lemmas -/

namespace SM

/-- A poll never creates or removes a key it does not list: folding
`updateOne` leaves the entry of any path not named by the items untouched. -/
theorem fold_frame (t : Nat) (p : String) :
    ∀ (items : List PathItem) (acc : MonitorState),
      (∀ i ∈ items, i.name ≠ p) →
      dlookup p (items.foldl (updateOne t) acc).streams =
        dlookup p acc.streams := by
  intro items
  induction items with
  | nil => intro acc _; rfl
  | cons i rest ih =>
    intro acc hne
    have hi : i.name ≠ p := hne i (List.mem_cons_self i rest)
    have hrest : ∀ j ∈ rest, j.name ≠ p :=
      fun j hj => hne j (List.mem_cons_of_mem i hj)
    rw [List.foldl_cons, ih (updateOne t acc i) hrest]
    unfold updateOne
    by_cases hblank : i.name = ""
    · rw [if_pos hblank]
    · rw [if_neg hblank]
      rcases hl : dlookup i.name acc.streams with _ | s0 <;>
        simp only [] <;>
        exact dlookup_insert_ne (fun hh => hi hh.symm) _ _

/-- The poll loop never writes the `status` or `start_time` field of an
entry that already exists: for a present path the update branch (lines
89-99) copies both fields unchanged, and new paths only add fresh keys. -/
theorem fold_preserves_status (t : Nat) (p : String) :
    ∀ (items : List PathItem) (acc : MonitorState) (s0 : StreamInfo),
      dlookup p acc.streams = some s0 →
      ∃ s1, dlookup p (items.foldl (updateOne t) acc).streams = some s1 ∧
        s1.status = s0.status ∧ s1.start_time = s0.start_time := by
  intro items
  induction items with
  | nil => intro acc s0 h; exact ⟨s0, h, rfl, rfl⟩
  | cons i rest ih =>
    intro acc s0 h
    rw [List.foldl_cons]
    by_cases hblank : i.name = ""
    · have : updateOne t acc i = acc := by unfold updateOne; rw [if_pos hblank]
      rw [this]; exact ih acc s0 h
    · by_cases hip : i.name = p
      · subst hip
        have hstep : dlookup i.name (updateOne t acc i).streams =
            some { s0 with
              publishers := if i.source.isSome then 1 else 0
              readers := i.readers
              last_seen := some t
              hls_url := hlsUrl i.name } := by
          unfold updateOne
          rw [if_neg hblank, h]
          exact dlookup_insert_self _ _ _
        obtain ⟨s1, hs1, hst, hstart⟩ := ih (updateOne t acc i) _ hstep
        exact ⟨s1, hs1, hst, hstart⟩
      · have hstep : dlookup p (updateOne t acc i).streams = some s0 := by
          unfold updateOne
          rw [if_neg hblank]
          rcases hl : dlookup i.name acc.streams with _ | sold <;>
            simp only [] <;>
            rw [dlookup_insert_ne (fun hh => hip hh.symm)] <;>
            exact h
        exact ih (updateOne t acc i) s0 hstep


theorem poll_establishes (t : Nat) :
    ∀ (items : List PathItem) (acc : MonitorState),
      items.Pairwise distinctNames →
      ∀ i ∈ items, i.name ≠ "" →
        ∃ s, dlookup i.name (items.foldl (updateOne t) acc).streams = some s ∧
          itemProps i s := by
  intro items
  induction items with
  | nil => intro acc _ i hi; exact absurd hi (List.not_mem_nil i)
  | cons j rest ih =>
    intro acc hpw i hi hname
    have hpwrest := (List.pairwise_cons.mp hpw).2
    have hhead := (List.pairwise_cons.mp hpw).1
    rcases List.mem_cons.mp hi with heq | hmem
    · -- the head item: its own step writes the fields, the rest of the fold
      -- never touches this key again
      subst heq
      rw [List.foldl_cons]
      have hstep : ∃ s, dlookup i.name (updateOne t acc i).streams = some s ∧
          itemProps i s := by
        unfold updateOne
        rw [if_neg hname]
        rcases hl : dlookup i.name acc.streams with _ | s0
        · exact ⟨_, dlookup_insert_self _ _ _, rfl, rfl, rfl⟩
        · exact ⟨_, dlookup_insert_self _ _ _, rfl, rfl, rfl⟩
      obtain ⟨s, hs, hprops⟩ := hstep
      refine ⟨s, ?_, hprops⟩
      rw [SM.fold_frame t i.name rest (updateOne t acc i) ?_]
      · exact hs
      · intro k hk
        by_cases hkb : k.name = ""
        · rw [hkb]; exact fun hh => hname hh.symm
        · exact fun hh => (hhead k hk hname hkb) hh.symm
    · -- an item of the tail: apply the induction hypothesis to the state
      -- after the head step
      rw [List.foldl_cons]
      exact ih (updateOne t acc j) hpwrest i hmem hname

/-- A second-poll step for a path whose entry already carries exactly the
item's fields rewrites the entry with only `last_seen` changed and emits no
event (the publisher count cannot have changed). -/
theorem updateOne_stable (t2 : Nat) (acc : MonitorState) (i : PathItem)
    (s : StreamInfo) (hname : i.name ≠ "")
    (hl : dlookup i.name acc.streams = some s) (hp : itemProps i s) :
    updateOne t2 acc i =
      { acc with
          streams := dinsert i.name { s with last_seen := some t2 }
            acc.streams } := by
  obtain ⟨hpub, hread, hhls⟩ := hp
  unfold updateOne
  rw [if_neg hname, hl]
  simp only []
  rw [← hpub, ← hread, ← hhls]
  rw [if_neg (by omega : ¬(s.publishers > 0 ∧ s.publishers = 0)),
    if_neg (by omega : ¬(s.publishers = 0 ∧ s.publishers > 0)),
    List.append_nil]

/-- Folding a second poll whose items all match the stored entries leaves the
event queue untouched and changes no stored field except `last_seen`. -/
theorem secondPoll_fold (t2 : Nat) :
    ∀ (items : List PathItem) (acc : MonitorState),
      items.Pairwise distinctNames →
      (∀ i ∈ items, i.name ≠ "" →
        ∃ s, dlookup i.name acc.streams = some s ∧ itemProps i s) →
      (items.foldl (updateOne t2) acc).events = acc.events ∧
      ∀ p, dlookup p (items.foldl (updateOne t2) acc).streams =
            dlookup p acc.streams ∨
        ∃ s, dlookup p acc.streams = some s ∧
          dlookup p (items.foldl (updateOne t2) acc).streams =
            some { s with last_seen := some t2 } := by
  intro items
  induction items with
  | nil => intro acc _ _; exact ⟨rfl, fun p => Or.inl rfl⟩
  | cons i rest ih =>
    intro acc hpw hmatch
    have hpwrest := (List.pairwise_cons.mp hpw).2
    have hhead := (List.pairwise_cons.mp hpw).1
    rw [List.foldl_cons]
    by_cases hname : i.name = ""
    · have hskip : updateOne t2 acc i = acc := by
        unfold updateOne; rw [if_pos hname]
      rw [hskip]
      exact ih acc hpwrest
        (fun j hj hjn => hmatch j (List.mem_cons_of_mem i hj) hjn)
    · obtain ⟨s, hl, hp⟩ := hmatch i (List.mem_cons_self i rest) hname
      rw [updateOne_stable t2 acc i s hname hl hp]
      set acc1 : MonitorState :=
        { acc with
            streams := dinsert i.name { s with last_seen := some t2 }
              acc.streams } with hacc1
      have hmatch1 : ∀ j ∈ rest, j.name ≠ "" →
          ∃ sj, dlookup j.name acc1.streams = some sj ∧ itemProps j sj := by
        intro j hj hjn
        obtain ⟨sj, hlj, hpj⟩ := hmatch j (List.mem_cons_of_mem i hj) hjn
        refine ⟨sj, ?_, hpj⟩
        rw [hacc1]
        exact (dlookup_insert_ne (hhead j hj hname hjn).symm _ _).trans hlj
      obtain ⟨hev, hstreams⟩ := ih acc1 hpwrest hmatch1
      refine ⟨hev, fun p => ?_⟩
      by_cases hpi : p = i.name
      · have hl1 : dlookup p acc1.streams =
            some { s with last_seen := some t2 } := by
          rw [hpi, hacc1]; exact dlookup_insert_self _ _ _
        have hlp : dlookup p acc.streams = some s := by rw [hpi]; exact hl
        rcases hstreams p with heq | ⟨s2, hs2, hfold⟩
        · exact Or.inr ⟨s, hlp, heq.trans hl1⟩
        · rw [hl1] at hs2
          have hs2e : s2 = { s with last_seen := some t2 } :=
            Option.some_inj.mp hs2.symm
          subst hs2e
          exact Or.inr ⟨s, hlp, hfold⟩
      · have hl1 : dlookup p acc1.streams = dlookup p acc.streams := by
          rw [hacc1]; exact dlookup_insert_ne hpi _ _
        rcases hstreams p with heq | ⟨s2, hs2, hfold⟩
        · exact Or.inl (heq.trans hl1)
        · exact Or.inr ⟨s2, hl1 ▸ hs2, hfold⟩

end SM

namespace WSM

/-- The fresh map built by a successful poll contains only entries produced by
`mkStream` from some listed, successfully fetched detail (plus whatever the
accumulator already held). -/
theorem fold_origin (t : Nat) (old : List (String × MonitoredStream)) :
    ∀ (ds : List PathDetail)
      (acc : List (String × MonitoredStream) × List (String × MonitoredStream))
      (p : String) (s : MonitoredStream),
      dlookup p (ds.foldl (processDetail t old) acc).1 = some s →
      dlookup p acc.1 = some s ∨
        ∃ d ∈ ds, d.name = p ∧ d.detailFails = false ∧ s = mkStream t old d := by
  intro ds
  induction ds with
  | nil => intro acc p s h; exact Or.inl h
  | cons d rest ih =>
    intro acc p s h
    rw [List.foldl_cons] at h
    rcases ih (processDetail t old acc d) p s h with hacc | ⟨d2, hd2, hrest⟩
    · unfold processDetail at hacc
      by_cases hblank : d.name = ""
      · rw [if_pos hblank] at hacc; exact Or.inl hacc
      · rw [if_neg hblank] at hacc
        by_cases hfail : d.detailFails
        · rw [if_pos hfail] at hacc; exact Or.inl hacc
        · rw [if_neg hfail] at hacc
          simp only [] at hacc
          rcases dlookup_insert_cases hacc with ⟨hpk, hsv⟩ | ⟨_, hold⟩
          · exact Or.inr ⟨d, List.mem_cons_self d rest,
              hpk.symm, Bool.not_eq_true _ ▸ by simpa using hfail, hsv⟩
          · exact Or.inl hold
    · exact Or.inr ⟨d2, List.mem_cons_of_mem d hd2, hrest⟩

/-- A path named by no detail never enters the freshly built map. -/
theorem fold_absent (t : Nat) (old : List (String × MonitoredStream))
    (p : String) :
    ∀ (ds : List PathDetail)
      (acc : List (String × MonitoredStream) × List (String × MonitoredStream)),
      (∀ d ∈ ds, d.name ≠ p) →
      dlookup p acc.1 = none →
      dlookup p (ds.foldl (processDetail t old) acc).1 = none := by
  intro ds
  induction ds with
  | nil => intro acc _ h; exact h
  | cons d rest ih =>
    intro acc hne hacc
    have hd : d.name ≠ p := hne d (List.mem_cons_self d rest)
    have hrest : ∀ j ∈ rest, j.name ≠ p :=
      fun j hj => hne j (List.mem_cons_of_mem d hj)
    rw [List.foldl_cons]
    refine ih (processDetail t old acc d) hrest ?_
    unfold processDetail
    by_cases hblank : d.name = ""
    · rw [if_pos hblank]; exact hacc
    · rw [if_neg hblank]
      by_cases hfail : d.detailFails
      · rw [if_pos hfail]; exact hacc
      · rw [if_neg hfail]
        simp only []
        rw [dlookup_insert_ne (fun hh => hd hh.symm)]
        exact hacc

/-- Folding the history append-and-trim step over a stream of points keeps
exactly the 1000 most recent points, in order. -/
theorem appendHistory_fold (xs : List TPoint) :
    xs.foldl appendHistory [] = xs.drop (xs.length - 1000) := by
  induction xs using List.reverseRecOn with
  | nil => rfl
  | append_singleton xs x ih =>
    rw [List.foldl_append, ih, List.foldl_cons, List.foldl_nil]
    have hlen : (xs.drop (xs.length - 1000)).length =
        xs.length - (xs.length - 1000) := List.length_drop _ _
    by_cases hn : xs.length < 1000
    · have hdrop0 : xs.length - 1000 = 0 := by omega
      rw [hdrop0, List.drop_zero]
      unfold appendHistory
      simp only []
      have hcond : ¬ 1000 < (xs ++ [x]).length := by
        rw [List.length_append, List.length_singleton]; omega
      rw [if_neg hcond]
      have hdrop1 : (xs ++ [x]).length - 1000 = 0 := by
        rw [List.length_append, List.length_singleton]; omega
      rw [hdrop1, List.drop_zero]
    · have hge : 1000 ≤ xs.length := by omega
      have hlen1000 : (xs.drop (xs.length - 1000)).length = 1000 := by
        rw [hlen]; omega
      unfold appendHistory
      simp only []
      have hcond : 1000 < (xs.drop (xs.length - 1000) ++ [x]).length := by
        rw [List.length_append, hlen1000, List.length_singleton]; omega
      rw [if_pos hcond]
      unfold SM.pySliceFrom
      rw [if_pos (by norm_num : (-1000 : Int) < 0)]
      have harith : (((xs.drop (xs.length - 1000) ++ [x]).length : Int) +
          (-1000)).toNat = 1 := by
        rw [List.length_append, hlen1000, List.length_singleton]
        norm_num
      rw [harith]
      rw [List.drop_append_of_le_length (by rw [hlen1000]; omega),
        List.drop_drop]
      have harith2 : xs.length - 1000 + 1 = (xs ++ [x]).length - 1000 := by
        rw [List.length_append, List.length_singleton]; omega
      rw [harith2]
      rw [List.drop_append_of_le_length
        (by rw [List.length_append, List.length_singleton] at harith2 ⊢; omega)]

/-- Per-path history evolution of the telemetry loop: the history stored for
`p` after a tick for `p` is the append-and-trim of what was stored before. -/
theorem historyAt_tickfold (p : String) :
    ∀ (ticks : List TPoint) (st : WebState),
      historyAt (ticks.foldl (fun st td => telemetryTick td.1 [(p, td.2)] st)
          st) p =
        ticks.foldl appendHistory (historyAt st p) := by
  intro ticks
  induction ticks with
  | nil => intro st; rfl
  | cons td rest ih =>
    intro st
    rw [List.foldl_cons, List.foldl_cons, ih]
    have hstep : historyAt (telemetryTick td.1 [(p, td.2)] st) p =
        appendHistory (historyAt st p) (td.1, td.2) := by
      unfold telemetryTick historyAt
      rw [List.foldl_cons, List.foldl_nil]
      simp only []
      rw [dlookup_insert_self]
      rfl
    rw [hstep]

/-- The stored status is `"active"` exactly when the detail showed
`state == "ready"` with a truthy `source` (line 147). -/
theorem mkStream_status_iff (t : Nat) (old : List (String × MonitoredStream))
    (d : PathDetail) :
    (mkStream t old d).status = "active" ↔
      (d.state = "ready" ∧ d.sourceSome = true) := by
  unfold mkStream
  by_cases h : d.state = "ready" ∧ d.sourceSome = true
  · simp [h]
  · simp only [h, if_false]
    exact iff_false_intro (by decide)

/-- The stored status depends only on the detail, not on the poll time or the
pre-poll map. -/
theorem mkStream_status_eq (t1 t2 : Nat)
    (old1 old2 : List (String × MonitoredStream)) (d : PathDetail) :
    (mkStream t1 old1 d).status = (mkStream t2 old2 d).status := rfl

/-- A successful-poll fold leaves the entry of any path named by no detail
untouched. -/
theorem foldW_frame (t : Nat) (old : List (String × MonitoredStream))
    (p : String) :
    ∀ (ds : List PathDetail)
      (acc : List (String × MonitoredStream) × List (String × MonitoredStream)),
      (∀ d ∈ ds, d.name ≠ p) →
      dlookup p (ds.foldl (processDetail t old) acc).1 =
        dlookup p acc.1 := by
  intro ds
  induction ds with
  | nil => intro acc _; rfl
  | cons d rest ih =>
    intro acc hne
    have hd : d.name ≠ p := hne d (List.mem_cons_self d rest)
    have hrest : ∀ j ∈ rest, j.name ≠ p :=
      fun j hj => hne j (List.mem_cons_of_mem d hj)
    rw [List.foldl_cons, ih (processDetail t old acc d) hrest]
    unfold processDetail
    by_cases hblank : d.name = ""
    · rw [if_pos hblank]
    · rw [if_neg hblank]
      by_cases hfail : d.detailFails
      · rw [if_pos hfail]
      · rw [if_neg hfail]
        simp only []
        exact dlookup_insert_ne (fun hh => hd hh.symm) _ _

/-- After a successful poll over details with distinct names, the entry of
each listed, successfully fetched path is exactly the stream `mkStream`
builds for its detail. -/
theorem pollW_establishes (t : Nat) (old : List (String × MonitoredStream)) :
    ∀ (ds : List PathDetail)
      (acc : List (String × MonitoredStream) × List (String × MonitoredStream)),
      ds.Pairwise distinctNames →
      ∀ d ∈ ds, d.name ≠ "" → d.detailFails = false →
        dlookup d.name (ds.foldl (processDetail t old) acc).1 =
          some (mkStream t old d) := by
  intro ds
  induction ds with
  | nil => intro acc _ d hd; exact absurd hd (List.not_mem_nil d)
  | cons j rest ih =>
    intro acc hpw d hd hname hfail
    have hpwrest := (List.pairwise_cons.mp hpw).2
    have hhead := (List.pairwise_cons.mp hpw).1
    rcases List.mem_cons.mp hd with heq | hmem
    · subst heq
      rw [List.foldl_cons]
      have hstep : dlookup d.name (processDetail t old acc d).1 =
          some (mkStream t old d) := by
        unfold processDetail
        rw [if_neg hname, if_neg (by rw [hfail]; simp)]
        exact dlookup_insert_self _ _ _
      rw [foldW_frame t old d.name rest (processDetail t old acc d) ?_]
      · exact hstep
      · intro k hk
        by_cases hkb : k.name = ""
        · rw [hkb]; exact fun hh => hname hh.symm
        · exact fun hh => (hhead k hk hname hkb) hh.symm
    · rw [List.foldl_cons]
      exact ih (processDetail t old acc j) hpwrest d hmem hname hfail

/-- A second poll whose pre-poll map already stores exactly the stream the
first poll built for a detail rebuilds that entry with only `last_seen`
changed. -/
theorem mkStream_stable (t1 t2 : Nat)
    (old0 old1 : List (String × MonitoredStream)) (d : PathDetail)
    (hl : dlookup d.name old1 = some (mkStream t1 old0 d)) :
    mkStream t2 old1 d = { mkStream t1 old0 d with last_seen := some t2 } := by
  unfold mkStream
  simp only []
  congr 1
  rw [hl]
  simp [mkStream, hl]

/-- A second poll over an unchanged detail emits no lifecycle event: the
status it computes equals the stored status, so neither the started nor the
ended condition fires. -/
theorem detailEvents_stable (t1 t2 : Nat)
    (old0 old1 : List (String × MonitoredStream)) (d : PathDetail)
    (hl : dlookup d.name old1 = some (mkStream t1 old0 d)) :
    detailEvents old1 d (mkStream t2 old1 d) = [] := by
  unfold detailEvents prevPresent prevStatusActive
  rw [hl]
  by_cases h : d.state = "ready" ∧ d.sourceSome = true
  · have hs2 : (mkStream t2 old1 d).status = "active" :=
      (mkStream_status_iff t2 old1 d).mpr h
    have hs1 : (mkStream t1 old0 d).status = "active" :=
      (mkStream_status_iff t1 old0 d).mpr h
    simp [hs1, hs2]
  · have hs2 : (mkStream t2 old1 d).status = "inactive" := by
      unfold mkStream; simp [h]
    have hs1 : (mkStream t1 old0 d).status = "inactive" := by
      unfold mkStream; simp [h]
    simp [hs1, hs2]

/-- The full second-poll step for an unchanged detail: the rebuilt entry
differs only in `last_seen` and the event accumulator is untouched. -/
theorem processDetail_stable (t1 t2 : Nat)
    (old0 old1 : List (String × MonitoredStream)) (d : PathDetail)
    (acc : List (String × MonitoredStream) × List (String × MonitoredStream))
    (hname : d.name ≠ "") (hfail : d.detailFails = false)
    (hl : dlookup d.name old1 = some (mkStream t1 old0 d)) :
    processDetail t2 old1 acc d =
      (dinsert d.name { mkStream t1 old0 d with last_seen := some t2 } acc.1,
        acc.2) := by
  unfold processDetail
  rw [if_neg hname, if_neg (by rw [hfail]; simp)]
  simp only []
  rw [detailEvents_stable t1 t2 old0 old1 d hl, List.append_nil,
    mkStream_stable t1 t2 old0 old1 d hl]

/-- Folding a second poll in parallel with the first: when the pre-poll map
holds exactly what the first poll built (distinct names), the second fold
appends no event and its map relates entrywise to the first fold's map by
rewriting `last_seen` to the second poll's time. -/
theorem secondPollW_fold (t1 t2 : Nat)
    (old0 old1 : List (String × MonitoredStream)) :
    ∀ (ds : List PathDetail)
      (acc1 acc2 :
        List (String × MonitoredStream) × List (String × MonitoredStream)),
      ds.Pairwise distinctNames →
      (∀ d ∈ ds, d.name ≠ "" → d.detailFails = false →
        dlookup d.name old1 = some (mkStream t1 old0 d)) →
      (∀ p, dlookup p acc2.1 =
        Option.map (fun s => { s with last_seen := some t2 })
          (dlookup p acc1.1)) →
      (ds.foldl (processDetail t2 old1) acc2).2 = acc2.2 ∧
      ∀ p, dlookup p (ds.foldl (processDetail t2 old1) acc2).1 =
        Option.map (fun s => { s with last_seen := some t2 })
          (dlookup p (ds.foldl (processDetail t1 old0) acc1).1) := by
  intro ds
  induction ds with
  | nil => intro acc1 acc2 _ _ hinv; exact ⟨rfl, hinv⟩
  | cons d rest ih =>
    intro acc1 acc2 hpw hmatch hinv
    have hpwrest := (List.pairwise_cons.mp hpw).2
    have hmatchrest : ∀ j ∈ rest, j.name ≠ "" → j.detailFails = false →
        dlookup j.name old1 = some (mkStream t1 old0 j) :=
      fun j hj => hmatch j (List.mem_cons_of_mem d hj)
    rw [List.foldl_cons, List.foldl_cons]
    by_cases hblank : d.name = ""
    · have hskip1 : processDetail t1 old0 acc1 d = acc1 := by
        unfold processDetail; rw [if_pos hblank]
      have hskip2 : processDetail t2 old1 acc2 d = acc2 := by
        unfold processDetail; rw [if_pos hblank]
      rw [hskip1, hskip2]
      exact ih acc1 acc2 hpwrest hmatchrest hinv
    · by_cases hfail : d.detailFails
      · have hskip1 : processDetail t1 old0 acc1 d = acc1 := by
          unfold processDetail; rw [if_neg hblank, if_pos hfail]
        have hskip2 : processDetail t2 old1 acc2 d = acc2 := by
          unfold processDetail; rw [if_neg hblank, if_pos hfail]
        rw [hskip1, hskip2]
        exact ih acc1 acc2 hpwrest hmatchrest hinv
      · have hfail2 : d.detailFails = false := by
          rcases hb : d.detailFails with _ | _
          · rfl
          · exact absurd hb hfail
        have hl := hmatch d (List.mem_cons_self d rest) hblank hfail2
        have hstep1 : processDetail t1 old0 acc1 d =
            (dinsert d.name (mkStream t1 old0 d) acc1.1,
              acc1.2 ++ detailEvents old0 d (mkStream t1 old0 d)) := by
          unfold processDetail
          rw [if_neg hblank, if_neg (by rw [hfail2]; simp)]
        have hstep2 := processDetail_stable t1 t2 old0 old1 d acc2 hblank
          hfail2 hl
        rw [hstep1, hstep2]
        refine ih _ _ hpwrest hmatchrest ?_
        intro p
        by_cases hpd : p = d.name
        · rw [hpd]
          rw [dlookup_insert_self, dlookup_insert_self]
          rfl
        · rw [dlookup_insert_ne hpd, dlookup_insert_ne hpd]
          exact hinv p

end WSM

/-- Clamping `max lo (min hi x)` never falls below `lo`. -/
theorem clamp_lower (lo hi x : ℚ) : lo ≤ max lo (min hi x) := le_max_left lo _

/-- Clamping `max lo (min hi x)` never exceeds `hi` when `lo ≤ hi`. -/
theorem clamp_upper (lo hi x : ℚ) (h : lo ≤ hi) : max lo (min hi x) ≤ hi :=
  max_le h (min_le_left hi x)

/-! ## Claim theorems -/

/-- Claim C2, as stated, is false on the code: `websocket_endpoint` registers
a freshly spawned encoder with a plain dict assignment
(`ffmpeg_processes[stream_key] = ffmpeg_process`, line 721) and never checks
for an existing entry; no `DuplicateProcessError` exists anywhere in the
repository. Here the registry already holds a live process `1` for key
`"k"`, yet a second start succeeds and silently replaces the entry with the
new pid `2`. -/
theorem c2_counterexample :
    dlookup "k" [(("k" : String), 1)] = some 1 ∧
    API.websocket_start (fun _ => true) (some 2) [("k", 1)] "k" "file"
        (some "v.mp4") =
      (API.StartResult.started 2, [("k", 2)]) := by
  exact ⟨rfl, rfl⟩

/-- Claim C2, amended: the encoder registry is a dict keyed by path id, so it
holds at most one entry per path id (key-uniqueness is preserved by every
registration), but a `start` for an already-registered path id does not fail
with a `DuplicateProcessError` — it succeeds and silently replaces the
registry entry with the new process. -/
theorem c2_registry (fileExists : String → Bool) (pid : Nat)
    (reg : List (String × Nat)) (key fp : String)
    (hfp : fp ≠ "")
    (hex : fileExists ("uploads/" ++ API.basename fp) = true)
    (hnodup : (dkeys reg).Nodup) :
    API.websocket_start fileExists (some pid) reg key "file" (some fp) =
      (API.StartResult.started pid, dinsert key pid reg) ∧
    dlookup key (dinsert key pid reg) = some pid ∧
    (dkeys (dinsert key pid reg)).Nodup := by
  refine ⟨?_, dlookup_insert_self _ _ _, dkeys_nodup_insert _ _ _ hnodup⟩
  unfold API.websocket_start
  rw [if_pos rfl]
  simp only []
  rw [if_neg hfp, if_pos hex]

/-- Witness for `c2_registry` at a concrete input: a registry holding one
other process, an existing upload, a second path key. -/
theorem c2_registry_witness :
    API.websocket_start (fun _ => true) (some 7) [("other", 3)] "k" "file"
        (some "v.mp4") =
      (API.StartResult.started 7, dinsert "k" 7 [("other", 3)]) ∧
    dlookup "k" (dinsert "k" 7 [(("other" : String), 3)]) = some 7 ∧
    (dkeys (dinsert "k" 7 [(("other" : String), 3)])).Nodup :=
  c2_registry (fun _ => true) 7 [("other", 3)] "k" "v.mp4" (by decide) rfl
    (by decide)

/-- Claim C3, as stated, is false on the async web monitor: its transport
error handler sets `self._active_streams = {}` (lines 198-203), so after a
failed poll `get_active_streams` returns an empty list even though the last
successful snapshot held a stream. -/
theorem c3_counterexample :
    WSM.get_active_streams
        { active := [("a",
            { path := "a", source_type := "publisher", publishers := [],
              readers := [], status := "active", rtsp_url := "r",
              hls_url := "h", start_time := some 1, last_seen := some 1 })] } ≠
      [] ∧
    WSM.get_active_streams
        (WSM.fetch_streams_status 9 none
          { active := [("a",
              { path := "a", source_type := "publisher", publishers := [],
                readers := [], status := "active", rtsp_url := "r",
                hls_url := "h", start_time := some 1, last_seen := some 1 })] }) =
      [] := by
  exact ⟨by decide, rfl⟩

/-- Claim C3, amended: in the thread-based monitor a failed poll (transport
error, non-200 status, or malformed payload) leaves the path-state map
frozen, so `get_active_streams` keeps returning the last-known snapshot; in
the async web monitor a transport error clears the state map, so
`get_active_streams` returns an empty list until the next successful poll. -/
theorem c3_failed_poll (t : Nat) (code : Nat) (st : SM.MonitorState)
    (wst : WSM.WebState) :
    SM.update_streams t SM.FetchResult.transportError st = st ∧
    SM.update_streams t (SM.FetchResult.badStatus code) st = st ∧
    SM.update_streams t SM.FetchResult.malformed st = st ∧
    SM.get_active_streams (SM.update_streams t SM.FetchResult.transportError st) =
      SM.get_active_streams st ∧
    (WSM.fetch_streams_status t none wst).active = [] ∧
    WSM.get_active_streams (WSM.fetch_streams_status t none wst) = [] :=
  ⟨rfl, rfl, rfl, rfl, rfl, rfl⟩

/-- Claim C6, as stated, is false on the async web simulator: its
`generate_telemetry` clamps altitude only from below at 0 (line 327), so one
tick started from altitude 50 (inside the claimed invariant range) with the
feasible draw `-2 ∈ [-2, 2]` produces altitude 48, outside `[50, 150]`. -/
theorem c6_counterexample :
    (WSM.genTickScalars ⟨50, 10, 80, 90⟩ (-2) 0 (1/100) 0).altitude = 48 ∧
    ((48 : ℚ) < 50) := by
  constructor
  · norm_num [WSM.genTickScalars]
  · norm_num

/-- Claim C6, amended: after every tick of the thread-based simulator
(`drone_telemetry.py`, lines 124-134) the sample satisfies
`altitude ∈ [50,150]`, `speed ∈ [5,15]`, `battery ∈ [0,100]` and
`signalStrength ∈ [0,100]`, whatever the random draws; the async web
simulator guarantees only `battery ∈ [0,100]`, `signalStrength ∈ [0,100]`,
`altitude ≥ 0` and `speed ≥ 0`. -/
theorem c6_tick_bounds (d : DT.DroneScalars) (w : WSM.WDrone)
    (dAlt dSpd dBat dSig eAlt eSpd eBat eSig : ℚ) :
    (50 ≤ (DT.simTick d dAlt dSpd dBat dSig).altitude ∧
      (DT.simTick d dAlt dSpd dBat dSig).altitude ≤ 150 ∧
      5 ≤ (DT.simTick d dAlt dSpd dBat dSig).speed ∧
      (DT.simTick d dAlt dSpd dBat dSig).speed ≤ 15 ∧
      0 ≤ (DT.simTick d dAlt dSpd dBat dSig).battery ∧
      (DT.simTick d dAlt dSpd dBat dSig).battery ≤ 100 ∧
      0 ≤ (DT.simTick d dAlt dSpd dBat dSig).signal_strength ∧
      (DT.simTick d dAlt dSpd dBat dSig).signal_strength ≤ 100) ∧
    (0 ≤ (WSM.genTickScalars w eAlt eSpd eBat eSig).battery ∧
      (WSM.genTickScalars w eAlt eSpd eBat eSig).battery ≤ 100 ∧
      0 ≤ (WSM.genTickScalars w eAlt eSpd eBat eSig).signal_strength ∧
      (WSM.genTickScalars w eAlt eSpd eBat eSig).signal_strength ≤ 100 ∧
      0 ≤ (WSM.genTickScalars w eAlt eSpd eBat eSig).altitude ∧
      0 ≤ (WSM.genTickScalars w eAlt eSpd eBat eSig).speed) := by
  unfold DT.simTick WSM.genTickScalars
  simp only []
  refine ⟨⟨?_, ?_, ?_, ?_, ?_, ?_, ?_, ?_⟩, ?_, ?_, ?_, ?_, ?_, ?_⟩
  · exact clamp_lower _ _ _
  · exact clamp_upper _ _ _ (by norm_num)
  · exact clamp_lower _ _ _
  · exact clamp_upper _ _ _ (by norm_num)
  · exact clamp_lower _ _ _
  · exact clamp_upper _ _ _ (by norm_num)
  · exact clamp_lower _ _ _
  · exact clamp_upper _ _ _ (by norm_num)
  · exact clamp_lower _ _ _
  · exact clamp_upper _ _ _ (by norm_num)
  · exact clamp_lower _ _ _
  · exact clamp_upper _ _ _ (by norm_num)
  · exact le_max_left _ _
  · exact le_max_left _ _

/-- Claim C9: starting an encoder for a `file` source whose referenced file
does not exist takes the early-return branch at lines 669-679 — before the
spawn — so the outcome is the invalid-source failure and the registry keeps
exactly its previous entries, whatever the spawner would have produced. -/
theorem c9_invalid_source (fileExists : String → Bool) (spawn : Option Nat)
    (reg : List (String × Nat)) (key fp : String)
    (hfp : fp ≠ "")
    (hmiss : fileExists ("uploads/" ++ API.basename fp) = false) :
    API.websocket_start fileExists spawn reg key "file" (some fp) =
      (API.StartResult.invalidSource, reg) ∧
    dlookup key
        (API.websocket_start fileExists spawn reg key "file" (some fp)).2 =
      dlookup key reg := by
  have h : API.websocket_start fileExists spawn reg key "file" (some fp) =
      (API.StartResult.invalidSource, reg) := by
    unfold API.websocket_start
    rw [if_pos rfl]
    simp only []
    rw [if_neg hfp, if_neg (by rw [hmiss]; simp)]
  exact ⟨h, by rw [h]⟩

/-- Witness for `c9_invalid_source`: the spec's own scenario,
`start("drone-2", File{path:"missing.mp4"})` with the file absent. -/
theorem c9_invalid_source_witness :
    API.websocket_start (fun _ => false) (some 3) [("other", 1)] "drone-2"
        "file" (some "missing.mp4") =
      (API.StartResult.invalidSource, [("other", 1)]) ∧
    dlookup "drone-2"
        (API.websocket_start (fun _ => false) (some 3) [("other", 1)] "drone-2"
          "file" (some "missing.mp4")).2 =
      dlookup "drone-2" [(("other" : String), 1)] :=
  c9_invalid_source (fun _ => false) (some 3) [("other", 1)] "drone-2"
    "missing.mp4" (by decide) rfl

/-- Claim C10: with `limit = 0` both `get_telemetry_history` implementations
compute the slice `history[-0:] = history[0:]`, i.e. the entire stored
history for the path, not an empty list. -/
theorem c10_limit_zero (st : SM.MonitorState) (wst : WSM.WebState)
    (p : String) :
    SM.get_telemetry_history st p 0 =
      (dlookup p st.telemetry_history).getD [] ∧
    WSM.get_telemetry_history wst p 0 =
      (dlookup p wst.telemetry_history).getD [] := by
  constructor
  · unfold SM.get_telemetry_history
    rcases h : dlookup p st.telemetry_history with _ | hist
    · rfl
    · simp [SM.pySliceFrom]
  · simp [WSM.get_telemetry_history, SM.pySliceFrom]

/-- Claim C1, as stated, is false on the thread-based monitor: a single
successful poll that lists path `"a"` with a falsy `source` creates its
entry with `publishers = 0` yet the dataclass default `status = "active"`
(`_update_streams` never writes the status field), so
`status == "active"` holds while `publisherCount > 0` does not. -/
theorem c1_counterexample :
    (dlookup "a"
        (SM.update_streams 0 (SM.FetchResult.ok [⟨"a", none, 0⟩])
          {}).streams).map (fun s => (s.status, s.publishers)) =
      some ("active", 0) := by
  rfl

/-- Claim C1, amended: after every successful poll of the async web monitor,
an entry's status is `"active"` iff its detail fetch showed
`state == "ready"` with a truthy `source` object (the upstream ready/source
condition); the thread-based monitor's poll never writes the `status` field
of an existing entry (nor `start_time`), so no relation between `status`
and the publisher count is maintained there. -/
theorem c1_status_iff (t : Nat) (ds : List WSM.PathDetail)
    (wst : WSM.WebState) (p : String) (s : WSM.MonitoredStream)
    (items : List SM.PathItem) (st : SM.MonitorState) (q : String)
    (s0 : SM.StreamInfo) :
    (dlookup p (WSM.fetch_streams_status t (some ds) wst).active = some s →
      ∃ d ∈ ds, d.name = p ∧ d.detailFails = false ∧
        (s.status = "active" ↔ (d.state = "ready" ∧ d.sourceSome = true))) ∧
    (dlookup q st.streams = some s0 →
      ∃ s1, dlookup q (SM.update_streams t (SM.FetchResult.ok items) st).streams =
          some s1 ∧
        s1.status = s0.status ∧ s1.start_time = s0.start_time) := by
  constructor
  · intro h
    unfold WSM.fetch_streams_status at h
    simp only [] at h
    rcases WSM.fold_origin t wst.active ds ([], []) p s h with
      habs | ⟨d, hd, hn, hf, hs⟩
    · rw [dlookup_nil] at habs; cases habs
    · exact ⟨d, hd, hn, hf, hs ▸ WSM.mkStream_status_iff t wst.active d⟩
  · intro h
    exact SM.fold_preserves_status t q items st s0 h

/-- Witness for `c1_status_iff`: a one-path poll of the web monitor from an
empty state, and a thread-monitor poll over a state holding one entry. -/
theorem c1_status_iff_witness :
    (∃ d ∈ ([⟨"a", "publisher", true, [], [], "ready", false⟩] :
        List WSM.PathDetail),
      d.name = "a" ∧ d.detailFails = false ∧
        ((WSM.mkStream 0 [] ⟨"a", "publisher", true, [], [], "ready", false⟩).status =
            "active" ↔
          (d.state = "ready" ∧ d.sourceSome = true))) ∧
    (∃ s1, dlookup "b"
        (SM.update_streams 5 (SM.FetchResult.ok [⟨"b", none, 0⟩])
          { streams := [("b",
              { path := "b", source_type := "rtmp", publishers := 1,
                readers := 0, rtsp_url := "r", hls_url := "h",
                start_time := some 2, last_seen := some 2 })] }).streams =
        some s1 ∧
      s1.status = "active" ∧ s1.start_time = some 2) := by
  exact ⟨(c1_status_iff 0 [⟨"a", "publisher", true, [], [], "ready", false⟩]
      {} "a" (WSM.mkStream 0 [] ⟨"a", "publisher", true, [], [], "ready", false⟩)
      [] {} "x" default).1 rfl,
    (c1_status_iff 5 [] {} "x" default [⟨"b", none, 0⟩]
      { streams := [("b",
          { path := "b", source_type := "rtmp", publishers := 1,
            readers := 0, rtsp_url := "r", hls_url := "h",
            start_time := some 2, last_seen := some 2 })] } "b"
      { path := "b", source_type := "rtmp", publishers := 1,
        readers := 0, rtsp_url := "r", hls_url := "h",
        start_time := some 2, last_seen := some 2 }).2 rfl⟩

/-- Claim C4, as stated, is false on the code: in the async web monitor a
path first seen inactive is stored with `start_time = None`; when a later
poll sees it active, `stream_started` is emitted but the new entry copies
the stored `start_time` (line 160), so it stays `None` instead of being set
to the poll's current time (7 here). -/
theorem c4_counterexample :
    (WSM.fetch_streams_status 7
        (some [⟨"a", "publisher", true, [], [], "ready", false⟩])
        (WSM.fetch_streams_status 3
          (some [⟨"a", "publisher", true, [], [], "notReady", false⟩])
          {})).events.map Prod.fst = ["stream_started"] ∧
    (dlookup "a"
        (WSM.fetch_streams_status 7
          (some [⟨"a", "publisher", true, [], [], "ready", false⟩])
          (WSM.fetch_streams_status 3
            (some [⟨"a", "publisher", true, [], [], "notReady", false⟩])
            {})).active).map WSM.MonitoredStream.start_time = some none := by
  exact ⟨rfl, rfl⟩

/-- Claim C4, amended: when a poll observes a previously stored inactive path
as active, the async web monitor emits `stream_started` but keeps the
previously stored `startTime` even when it is unset, and the thread-based
monitor labels the transition `stream_restarted` (not `started`), likewise
leaving `startTime` untouched. -/
theorem c4_transition (t : Nat) (wst : WSM.WebState) (d : WSM.PathDetail)
    (s0 : WSM.MonitoredStream) (st : SM.MonitorState) (i : SM.PathItem)
    (s2 : SM.StreamInfo) :
    (d.name ≠ "" → d.detailFails = false →
      dlookup d.name wst.active = some s0 → s0.status ≠ "active" →
      d.state = "ready" → d.sourceSome = true →
      (WSM.fetch_streams_status t (some [d]) wst).events =
        wst.events ++ [("stream_started", WSM.mkStream t wst.active d)] ∧
      (WSM.mkStream t wst.active d).start_time = s0.start_time) ∧
    (i.name ≠ "" → dlookup i.name st.streams = some s2 →
      s2.publishers = 0 → i.source.isSome = true →
      (SM.updateOne t st i).events =
        st.events ++ [("stream_restarted",
          { s2 with
              publishers := 1
              readers := i.readers
              last_seen := some t
              hls_url := SM.hlsUrl i.name })] ∧
      dlookup i.name (SM.updateOne t st i).streams =
        some { s2 with
            publishers := 1
            readers := i.readers
            last_seen := some t
            hls_url := SM.hlsUrl i.name } ∧
      ({ s2 with
          publishers := 1
          readers := i.readers
          last_seen := some t
          hls_url := SM.hlsUrl i.name } : SM.StreamInfo).start_time =
        s2.start_time) := by
  constructor
  · intro hname hfail hold hs0 hready hsrc
    have hstat : (WSM.mkStream t wst.active d).status = "active" :=
      (WSM.mkStream_status_iff t wst.active d).mpr ⟨hready, hsrc⟩
    constructor
    · unfold WSM.fetch_streams_status
      simp only [List.foldl_cons, List.foldl_nil]
      unfold WSM.processDetail
      rw [if_neg hname, if_neg (by rw [hfail]; simp)]
      simp only []
      congr 1
      rw [List.nil_append]
      unfold WSM.detailEvents
      rw [if_pos ?cond]
      case cond =>
        rw [hstat]
        unfold WSM.prevPresent WSM.prevStatusActive
        rw [hold]
        simp [hs0]
    · unfold WSM.mkStream
      simp only []
      rw [if_neg (by rw [hold]; simp), hold]
  · intro hname hlook hpub hsrc
    unfold SM.updateOne
    rw [if_neg hname, hlook]
    simp only [hsrc, if_true]
    rw [if_neg (by omega), if_pos (by omega)]
    exact ⟨rfl, dlookup_insert_self _ _ _, by trivial⟩

/-- Witness for `c4_transition`: a stored inactive web entry with unset
`startTime` turning active, and a stored zero-publisher thread entry whose
item regains a source. -/
theorem c4_transition_witness :
    ((WSM.fetch_streams_status 7
        (some [⟨"a", "publisher", true, [], [], "ready", false⟩])
        { active := [("a",
            { path := "a", source_type := "publisher", publishers := [],
              readers := [], status := "inactive", rtsp_url := "r",
              hls_url := "h", start_time := none, last_seen := some 3 })] }).events =
      [] ++ [("stream_started",
        WSM.mkStream 7
          [("a",
            { path := "a", source_type := "publisher", publishers := [],
              readers := [], status := "inactive", rtsp_url := "r",
              hls_url := "h", start_time := none, last_seen := some 3 })]
          ⟨"a", "publisher", true, [], [], "ready", false⟩)] ∧
      (WSM.mkStream 7
        [("a",
          { path := "a", source_type := "publisher", publishers := [],
            readers := [], status := "inactive", rtsp_url := "r",
            hls_url := "h", start_time := none, last_seen := some 3 })]
        ⟨"a", "publisher", true, [], [], "ready", false⟩).start_time = none) ∧
    ((SM.updateOne 9
        { streams := [("b",
            { path := "b", source_type := "rtmp", publishers := 0,
              readers := 0, rtsp_url := "r", hls_url := SM.hlsUrl "b",
              start_time := some 1, last_seen := some 1 })] }
        ⟨"b", some "rtmp", 2⟩).events =
      [] ++ [("stream_restarted",
        { path := "b", source_type := "rtmp", publishers := 1,
          readers := 2, rtsp_url := "r", hls_url := SM.hlsUrl "b",
          start_time := some 1, last_seen := some 9 })] ∧
      dlookup "b" (SM.updateOne 9
          { streams := [("b",
              { path := "b", source_type := "rtmp", publishers := 0,
                readers := 0, rtsp_url := "r", hls_url := SM.hlsUrl "b",
                start_time := some 1, last_seen := some 1 })] }
          ⟨"b", some "rtmp", 2⟩).streams =
        some { path := "b", source_type := "rtmp", publishers := 1,
               readers := 2, rtsp_url := "r", hls_url := SM.hlsUrl "b",
               start_time := some 1, last_seen := some 9 } ∧
      ({ path := "b", source_type := "rtmp", publishers := 1, readers := 2,
         rtsp_url := "r", hls_url := SM.hlsUrl "b", start_time := some 1,
         last_seen := some 9 : SM.StreamInfo }).start_time = some 1) := by
  constructor
  · exact (c4_transition 7
      { active := [("a",
          { path := "a", source_type := "publisher", publishers := [],
            readers := [], status := "inactive", rtsp_url := "r",
            hls_url := "h", start_time := none, last_seen := some 3 })] }
      ⟨"a", "publisher", true, [], [], "ready", false⟩
      { path := "a", source_type := "publisher", publishers := [],
        readers := [], status := "inactive", rtsp_url := "r",
        hls_url := "h", start_time := none, last_seen := some 3 }
      {} default default).1 (by decide) rfl rfl (by decide) rfl rfl
  · exact (c4_transition 9 {} default default
      { streams := [("b",
          { path := "b", source_type := "rtmp", publishers := 0,
            readers := 0, rtsp_url := "r", hls_url := SM.hlsUrl "b",
            start_time := some 1, last_seen := some 1 })] }
      ⟨"b", some "rtmp", 2⟩
      { path := "b", source_type := "rtmp", publishers := 0, readers := 0,
        rtsp_url := "r", hls_url := SM.hlsUrl "b", start_time := some 1,
        last_seen := some 1 }).2 (by decide) rfl rfl rfl

/-- Claim C5, as stated, is false on the code: polling the same one-item
snapshot twice (at clock 0, then clock 1) emits no new event on the second
poll, but the `PathState` map is not unchanged — `last_seen` is rewritten to
the second poll's time, so the stored entries differ. -/
theorem c5_counterexample :
    (SM.update_streams 1 (SM.FetchResult.ok [⟨"a", some "rtsp", 2⟩])
        (SM.update_streams 0 (SM.FetchResult.ok [⟨"a", some "rtsp", 2⟩])
          {})).events =
      (SM.update_streams 0 (SM.FetchResult.ok [⟨"a", some "rtsp", 2⟩])
        {}).events ∧
    (SM.update_streams 1 (SM.FetchResult.ok [⟨"a", some "rtsp", 2⟩])
        (SM.update_streams 0 (SM.FetchResult.ok [⟨"a", some "rtsp", 2⟩])
          {})).streams ≠
      (SM.update_streams 0 (SM.FetchResult.ok [⟨"a", some "rtsp", 2⟩])
        {}).streams := by
  exact ⟨rfl, by decide⟩

/-- Claim C5, amended: a second poll with an unchanged upstream snapshot
(distinct path names, as the relay guarantees) emits zero new lifecycle
events, and every stored entry is unchanged in every field except
`last_seen`, which is rewritten to the second poll's time. For the
thread-based monitor the entries are updated in place; for the async web
monitor the rebuilt map holds, entry for entry, the first poll's streams
with only `last_seen` rewritten. -/
theorem c5_second_poll (t1 t2 : Nat) (items : List SM.PathItem)
    (st0 : SM.MonitorState) (ds : List WSM.PathDetail) (wst0 : WSM.WebState)
    (hpw : items.Pairwise SM.distinctNames)
    (hpwW : ds.Pairwise WSM.distinctNames) :
    (SM.update_streams t2 (SM.FetchResult.ok items)
        (SM.update_streams t1 (SM.FetchResult.ok items) st0)).events =
      (SM.update_streams t1 (SM.FetchResult.ok items) st0).events ∧
    (∀ p, dlookup p (SM.update_streams t2 (SM.FetchResult.ok items)
          (SM.update_streams t1 (SM.FetchResult.ok items) st0)).streams =
        dlookup p (SM.update_streams t1 (SM.FetchResult.ok items) st0).streams ∨
      ∃ s, dlookup p
          (SM.update_streams t1 (SM.FetchResult.ok items) st0).streams =
            some s ∧
        dlookup p (SM.update_streams t2 (SM.FetchResult.ok items)
            (SM.update_streams t1 (SM.FetchResult.ok items) st0)).streams =
          some { s with last_seen := some t2 }) ∧
    (WSM.fetch_streams_status t2 (some ds)
        (WSM.fetch_streams_status t1 (some ds) wst0)).events =
      (WSM.fetch_streams_status t1 (some ds) wst0).events ∧
    ∀ p, dlookup p (WSM.fetch_streams_status t2 (some ds)
          (WSM.fetch_streams_status t1 (some ds) wst0)).active =
      Option.map (fun s => { s with last_seen := some t2 })
        (dlookup p (WSM.fetch_streams_status t1 (some ds) wst0).active) := by
  have hmatch : ∀ i ∈ items, i.name ≠ "" →
      ∃ s, dlookup i.name
          (SM.update_streams t1 (SM.FetchResult.ok items) st0).streams =
        some s ∧ SM.itemProps i s :=
    fun i hi hn => SM.poll_establishes t1 items st0 hpw i hi hn
  have hthread := SM.secondPoll_fold t2 items _ hpw hmatch
  have hmatchW : ∀ d ∈ ds, d.name ≠ "" → d.detailFails = false →
      dlookup d.name (WSM.fetch_streams_status t1 (some ds) wst0).active =
        some (WSM.mkStream t1 wst0.active d) :=
    fun d hd hn hf =>
      WSM.pollW_establishes t1 wst0.active ds ([], []) hpwW d hd hn hf
  have hweb := WSM.secondPollW_fold t1 t2 wst0.active
    (WSM.fetch_streams_status t1 (some ds) wst0).active ds ([], []) ([], [])
    hpwW hmatchW (fun p => rfl)
  refine ⟨hthread.1, hthread.2, ?_, hweb.2⟩
  show (WSM.fetch_streams_status t1 (some ds) wst0).events ++
      (ds.foldl (WSM.processDetail t2
        (WSM.fetch_streams_status t1 (some ds) wst0).active) ([], [])).2 =
    (WSM.fetch_streams_status t1 (some ds) wst0).events
  rw [hweb.1, List.append_nil]

/-- Witness for `c5_second_poll`: one path polled twice by each monitor,
inspected at its own key. -/
theorem c5_second_poll_witness :
    (SM.update_streams 1 (SM.FetchResult.ok [⟨"a", some "rtsp", 2⟩])
        (SM.update_streams 0 (SM.FetchResult.ok [⟨"a", some "rtsp", 2⟩])
          {})).events =
      (SM.update_streams 0 (SM.FetchResult.ok [⟨"a", some "rtsp", 2⟩])
        {}).events ∧
    (dlookup "a" (SM.update_streams 1 (SM.FetchResult.ok [⟨"a", some "rtsp", 2⟩])
          (SM.update_streams 0 (SM.FetchResult.ok [⟨"a", some "rtsp", 2⟩])
            {})).streams =
        dlookup "a" (SM.update_streams 0
          (SM.FetchResult.ok [⟨"a", some "rtsp", 2⟩]) {}).streams ∨
      ∃ s, dlookup "a" (SM.update_streams 0
            (SM.FetchResult.ok [⟨"a", some "rtsp", 2⟩]) {}).streams = some s ∧
        dlookup "a" (SM.update_streams 1 (SM.FetchResult.ok [⟨"a", some "rtsp", 2⟩])
            (SM.update_streams 0 (SM.FetchResult.ok [⟨"a", some "rtsp", 2⟩])
              {})).streams =
          some { s with last_seen := some 1 }) ∧
    (WSM.fetch_streams_status 1
        (some [⟨"a", "publisher", true, [], [], "ready", false⟩])
        (WSM.fetch_streams_status 0
          (some [⟨"a", "publisher", true, [], [], "ready", false⟩])
          {})).events =
      (WSM.fetch_streams_status 0
        (some [⟨"a", "publisher", true, [], [], "ready", false⟩]) {}).events ∧
    dlookup "a" (WSM.fetch_streams_status 1
        (some [⟨"a", "publisher", true, [], [], "ready", false⟩])
        (WSM.fetch_streams_status 0
          (some [⟨"a", "publisher", true, [], [], "ready", false⟩])
          {})).active =
      Option.map (fun s => { s with last_seen := some 1 })
        (dlookup "a" (WSM.fetch_streams_status 0
          (some [⟨"a", "publisher", true, [], [], "ready", false⟩])
          {}).active) :=
  ⟨(c5_second_poll 0 1 [⟨"a", some "rtsp", 2⟩] {}
      [⟨"a", "publisher", true, [], [], "ready", false⟩] {}
      (by simp) (by simp)).1,
    (c5_second_poll 0 1 [⟨"a", some "rtsp", 2⟩] {}
      [⟨"a", "publisher", true, [], [], "ready", false⟩] {}
      (by simp) (by simp)).2.1 "a",
    (c5_second_poll 0 1 [⟨"a", some "rtsp", 2⟩] {}
      [⟨"a", "publisher", true, [], [], "ready", false⟩] {}
      (by simp) (by simp)).2.2.1,
    (c5_second_poll 0 1 [⟨"a", some "rtsp", 2⟩] {}
      [⟨"a", "publisher", true, [], [], "ready", false⟩] {}
      (by simp) (by simp)).2.2.2 "a"⟩

/-- Claim C7, as stated, is false on the async web monitor: it rebuilds the
state map from the upstream listing on every successful poll (line 195), so
a stored path absent from the listing is dropped from the map entirely. -/
theorem c7_counterexample :
    dlookup "a"
        ({ active := [("a",
            { path := "a", source_type := "publisher", publishers := [],
              readers := [], status := "active", rtsp_url := "r",
              hls_url := "h", start_time := some 1,
              last_seen := some 1 })] } : WSM.WebState).active =
      some { path := "a", source_type := "publisher", publishers := [],
             readers := [], status := "active", rtsp_url := "r",
             hls_url := "h", start_time := some 1, last_seen := some 1 } ∧
    dlookup "a"
        (WSM.fetch_streams_status 2 (some [])
          { active := [("a",
              { path := "a", source_type := "publisher", publishers := [],
                readers := [], status := "active", rtsp_url := "r",
                hls_url := "h", start_time := some 1,
                last_seen := some 1 })] }).active = none := by
  exact ⟨rfl, rfl⟩

/-- Claim C7, amended: in the thread-based monitor a path absent from the
upstream listing keeps its entry with every stored field unchanged (it is
neither purged nor marked inactive); in the async web monitor the map is
rebuilt from the listing, so a vanished path is removed from the state
map. -/
theorem c7_vanished (t : Nat) (items : List SM.PathItem)
    (st : SM.MonitorState) (ds : List WSM.PathDetail) (wst : WSM.WebState)
    (p : String) :
    ((∀ i ∈ items, i.name ≠ p) →
      dlookup p (SM.update_streams t (SM.FetchResult.ok items) st).streams =
        dlookup p st.streams) ∧
    ((∀ d ∈ ds, d.name ≠ p) →
      dlookup p (WSM.fetch_streams_status t (some ds) wst).active = none) := by
  constructor
  · intro h
    exact SM.fold_frame t p items st h
  · intro h
    unfold WSM.fetch_streams_status
    simp only []
    exact WSM.fold_absent t wst.active p ds ([], []) h rfl

/-- Witness for `c7_vanished`: a stored path `"a"` while the upstream lists
only `"b"`. -/
theorem c7_vanished_witness :
    dlookup "a"
        (SM.update_streams 4 (SM.FetchResult.ok [⟨"b", some "rtsp", 0⟩])
          { streams := [("a",
              { path := "a", source_type := "rtmp", publishers := 1,
                readers := 0, rtsp_url := "r", hls_url := "h",
                start_time := some 1, last_seen := some 1 })] }).streams =
      dlookup "a"
        ({ streams := [("a",
            { path := "a", source_type := "rtmp", publishers := 1,
              readers := 0, rtsp_url := "r", hls_url := "h",
              start_time := some 1,
              last_seen := some 1 })] } : SM.MonitorState).streams ∧
    dlookup "a"
        (WSM.fetch_streams_status 4
          (some [⟨"b", "publisher", true, [], [], "ready", false⟩])
          {}).active = none :=
  ⟨(c7_vanished 4 [⟨"b", some "rtsp", 0⟩]
      { streams := [("a",
          { path := "a", source_type := "rtmp", publishers := 1,
            readers := 0, rtsp_url := "r", hls_url := "h",
            start_time := some 1, last_seen := some 1 })] }
      [] {} "a").1 (by decide),
    (c7_vanished 4 [] {}
      [⟨"b", "publisher", true, [], [], "ready", false⟩] {} "a").2
      (by decide)⟩

/-- Claim C8 states the behaviour the history code at
`src/stream_monitor.py:210-218` was written for, but that code is
unreachable: `update_telemetry` first calls
`self.telemetry_simulator.update_telemetry(telemetry)` (line 201) and
`DroneTelemetrySimulator` has no such method, so every call raises
`AttributeError` and the thread monitor's history is never appended (first
conjunct). The same append-and-trim logic as implemented — and reachable —
in the async web monitor's telemetry loop
(`src/web/stream_monitor.py:96-105`) does satisfy the claim: after more
than 1000 ticks for one path the stored history, and
`get_telemetry_history(path, 10000)`, hold exactly the 1000 most recently
appended samples in order (second conjunct). -/
theorem c8_history (t : Nat) (batch : List (String × String))
    (st : SM.MonitorState) (p : String) (ticks : List WSM.TPoint) :
    SM.update_telemetry t batch st = Except.error SM.PyError.attributeError ∧
    (1000 < ticks.length →
      (WSM.historyAt (ticks.foldl
          (fun st td => WSM.telemetryTick td.1 [(p, td.2)] st) {}) p).length =
        1000 ∧
      WSM.historyAt (ticks.foldl
          (fun st td => WSM.telemetryTick td.1 [(p, td.2)] st) {}) p =
        ticks.drop (ticks.length - 1000) ∧
      WSM.get_telemetry_history (ticks.foldl
          (fun st td => WSM.telemetryTick td.1 [(p, td.2)] st) {}) p 10000 =
        ticks.drop (ticks.length - 1000)) := by
  constructor
  · rfl
  · intro hlen
    have hfold : WSM.historyAt (ticks.foldl
        (fun st td => WSM.telemetryTick td.1 [(p, td.2)] st) {}) p =
        ticks.drop (ticks.length - 1000) := by
      rw [WSM.historyAt_tickfold]
      have hempty : WSM.historyAt ({} : WSM.WebState) p = [] := rfl
      rw [hempty, WSM.appendHistory_fold]
    have hlen1000 : (ticks.drop (ticks.length - 1000)).length = 1000 := by
      rw [List.length_drop]; omega
    refine ⟨by rw [hfold, hlen1000], hfold, ?_⟩
    have hget : WSM.get_telemetry_history (ticks.foldl
        (fun st td => WSM.telemetryTick td.1 [(p, td.2)] st) {}) p 10000 =
        SM.pySliceFrom (ticks.drop (ticks.length - 1000)) (-10000) := by
      unfold WSM.get_telemetry_history
      unfold WSM.historyAt at hfold
      rw [hfold]
    rw [hget]
    unfold SM.pySliceFrom
    rw [if_pos (by norm_num : (-10000 : Int) < 0), hlen1000]
    norm_num
    rw [show ((-9000 : Int)).toNat = 0 from rfl, Nat.add_zero]

/-- Witness for `c8_history`: 1001 ticks for one path. -/
theorem c8_history_witness :
    SM.update_telemetry 0 [] {} = Except.error SM.PyError.attributeError ∧
    (WSM.historyAt (((List.range 1001).map (fun n => (n, "s"))).foldl
        (fun st td => WSM.telemetryTick td.1 [("drone-1", td.2)] st) {})
      "drone-1").length = 1000 :=
  ⟨(c8_history 0 [] {} "drone-1" ((List.range 1001).map (fun n => (n, "s")))).1,
    ((c8_history 0 [] {} "drone-1"
      ((List.range 1001).map (fun n => (n, "s")))).2 (by simp)).1⟩

end SmartConverter
